import Mathlib

/-!
Verification of the SwaggerHub validation-report core: a shallow embedding of
the issue normalizer (services/validation-engine.js, the variant consuming the
SwaggerHub Standardization API), the diff engine (services/diff-engine.js) and
the paginated report compositor (services/report-generator.js), together with
theorems about them.

Conventions of the embedding:
- JS strings that may be absent are Option String; the JS expression a || b on
  such fields is strOr (the empty string is falsy).
- A loosely typed JS value (string / number / missing) is JsVal.
- The stable ascending Array.prototype.sort by a numeric key is an insertion
  sort (sortBySeverity); Node 18 sort is stable, and no theorem below depends
  on more than stability and permutation.
- Fallible code returns Except; machine numbers are Int or Nat (scores and
  counts stay far from any overflow boundary).
-/

-- ===== JS string and value helpers =====

/-- JS String.prototype.toUpperCase on the ASCII strings that occur here. -/
def jsToUpper (s : String) : String := ⟨s.data.map Char.toUpper⟩

/-- JS String.prototype.toLowerCase on the ASCII strings that occur here. -/
def jsToLower (s : String) : String := ⟨s.data.map Char.toLower⟩

/-- Whether a char list begins with the needle. -/
def chStartsWith : List Char → List Char → Bool
  | [], _ => true
  | _ :: _, [] => false
  | a :: as, b :: bs => a == b && chStartsWith as bs

/-- Whether the needle occurs contiguously inside the haystack. -/
def chOccursIn (needle : List Char) : List Char → Bool
  | [] => needle.isEmpty
  | c :: rest => chStartsWith needle (c :: rest) || chOccursIn needle rest

/-- JS String.prototype.includes: s.includes(sub). -/
def jsIncludes (s sub : String) : Bool := chOccursIn sub.data s.data

/-- JS a || b where a is a possibly-absent string; the empty string is falsy. -/
def strOr (a b : Option String) : Option String :=
  match a with
  | some s => if s = "" then b else some s
  | none => b

/-- JS a || d with a string default d. -/
def strOrD (a : Option String) (d : String) : String :=
  match a with
  | some s => if s = "" then d else s
  | none => d

/-- A loosely typed JS field value: a string, a number, or missing
(undefined / null). -/
inductive JsVal where
  | str (s : String)
  | num (n : Int)
  | absent
deriving DecidableEq

/-- JS falsiness of a JsVal: undefined, null, 0 and the empty string are
falsy. -/
def JsVal.falsy : JsVal → Bool
  | .str s => s == ""
  | .num n => n == 0
  | .absent => true

/-- JS String(v) conversion. -/
def JsVal.toStr : JsVal → String
  | .str s => s
  | .num n => toString n
  | .absent => "undefined"

-- ===== Issue normalizer (ValidationEngine) =====

/-- Source range attached to an issue when the raw record carries a line. -/
structure IssueRange where
  startLine : Int
  startCol : Int
  endLine : Int
  endCol : Int
deriving DecidableEq

/-- A normalized issue, as produced by ValidationEngine.validate. -/
structure Issue where
  code : String := ""
  message : String := ""
  severity : String := "Warning"
  severityLevel : Nat := 1
  path : String := ""
  range : Option IssueRange := none
  category : String := "General"
deriving DecidableEq

/-- ValidationEngine.mapSeverity: map a SwaggerHub standardization severity to
a human-readable label. Mirrors the source exactly, including the falsy guard
that fires before the string comparisons. -/
def ValidationEngine.mapSeverity (severity : JsVal) : String :=
  if severity.falsy then ("Warning")
  else
    let s := jsToUpper severity.toStr
    if s = "ERROR" ∨ s = "0" then ("Error")
    else if s = "WARN" ∨ s = "WARNING" ∨ s = "1" then ("Warning")
    else if s = "INFO" ∨ s = "INFORMATION" ∨ s = "2" then ("Information")
    else if s = "HINT" ∨ s = "3" then ("Hint")
    else ("Warning")

/-- ValidationEngine.mapSeverityLevel: numeric level for sorting
(0=Error, 1=Warning, 2=Information, 3=Hint). -/
def ValidationEngine.mapSeverityLevel (severity : JsVal) : Nat :=
  if severity.falsy then 1
  else
    let s := jsToUpper severity.toStr
    if s = "ERROR" ∨ s = "0" then 0
    else if s = "WARN" ∨ s = "WARNING" ∨ s = "1" then 1
    else if s = "INFO" ∨ s = "INFORMATION" ∨ s = "2" then 2
    else if s = "HINT" ∨ s = "3" then 3
    else 1

/-- ValidationEngine.categorizeIssue: keyword classifier over the case-folded
rule name; the first matching branch wins, General is the fallback. -/
def ValidationEngine.categorizeIssue (ruleName : String) : String :=
  let code := jsToLower ruleName
  if jsIncludes code ("schema") || jsIncludes code ("oas2-")
      || jsIncludes code ("oas3-") then ("Spec Compliance")
  else if jsIncludes code ("description") || jsIncludes code ("contact")
      || jsIncludes code ("license") || jsIncludes code ("info-") then ("Documentation")
  else if jsIncludes code ("operationid") || jsIncludes code ("operation-tags")
      || jsIncludes code ("path-params") then ("Structure")
  else if jsIncludes code ("security") || jsIncludes code ("eval")
      || jsIncludes code ("script") then ("Security")
  else if jsIncludes code ("casing") || jsIncludes code ("naming")
      || jsIncludes code ("path-key") || jsIncludes code ("trailing-slash") then
    ("Naming Conventions")
  else if jsIncludes code ("response") || jsIncludes code ("success-response") then
    ("Response Design")
  else if jsIncludes code ("server") || jsIncludes code ("host")
      || jsIncludes code ("scheme") then ("Server Configuration")
  else if jsIncludes code ("bp-") || jsIncludes code ("best-practice") then
    ("Best Practice")
  else ("General")

/-- A raw standardization record; every field is loosely typed and may be
missing, exactly as the normalizer tolerates. -/
structure RawErr where
  ruleName : Option String := none
  rule : Option String := none
  message : Option String := none
  description : Option String := none
  severity : JsVal := .absent
  pointer : Option String := none
  path : Option String := none
  line : Option Int := none
  character : Option Int := none
deriving DecidableEq

/-- The JS template (err.line ? line N : empty) with 0 falsy. -/
def RawErr.lineText (e : RawErr) : String :=
  match e.line with
  | some n => if n = 0 then ("") else ("line " ++ toString n)
  | none => ""

/-- JS err.character || 1 with 0 falsy. -/
def RawErr.charCol (e : RawErr) : Int :=
  match e.character with
  | some c => if c = 0 then 1 else c
  | none => 1

/-- The per-record mapping inside ValidationEngine.validate: one raw record
becomes exactly one issue, with every field defaulted. -/
def ValidationEngine.toIssue (err : RawErr) : Issue :=
  { code := strOrD (strOr err.ruleName err.rule) ("standardization")
    message := strOrD (strOr err.message err.description) ("Standardization violation")
    severity := ValidationEngine.mapSeverity err.severity
    severityLevel := ValidationEngine.mapSeverityLevel err.severity
    path := strOrD (strOr err.pointer err.path) (err.lineText)
    range :=
      match err.line with
      | some n =>
          if n = 0 then none
          else some { startLine := n, startCol := err.charCol,
                      endLine := n, endCol := err.charCol }
      | none => none
    category := ValidationEngine.categorizeIssue (strOrD (strOr err.ruleName err.rule) ("")) }

/-- Insert an issue into a list sorted ascending by severityLevel, before any
later-input issue of equal level (stability). -/
def insertBySeverity (i : Issue) : List Issue → List Issue
  | [] => [i]
  | j :: rest =>
      if i.severityLevel ≤ j.severityLevel then i :: j :: rest
      else j :: insertBySeverity i rest

/-- The stable ascending sort issues.sort((a, b) => a.severityLevel -
b.severityLevel) of the source. -/
def sortBySeverity : List Issue → List Issue
  | [] => []
  | i :: rest => insertBySeverity i (sortBySeverity rest)

/-- Per-category counters. -/
structure CatCounts where
  count : Nat := 0
  errors : Nat := 0
  warnings : Nat := 0
deriving DecidableEq

/-- One loop step of summarizeByCategory on one category entry. -/
def CatCounts.addIssue (c : CatCounts) (i : Issue) : CatCounts :=
  { count := c.count + 1
    errors := c.errors + (if i.severity = "Error" then 1 else 0)
    warnings := c.warnings + (if i.severity = "Warning" then 1 else 0) }

/-- Update the insertion-ordered category map at a key, creating the zero
entry first when the key is new (JS object keyed by category). -/
def updateCategory (key : String) (i : Issue) :
    List (String × CatCounts) → List (String × CatCounts)
  | [] => [(key, CatCounts.addIssue {} i)]
  | (k, c) :: rest =>
      if k = key then (k, c.addIssue i) :: rest
      else (k, c) :: updateCategory key i rest

/-- ValidationEngine.summarizeByCategory: fold the issues into an
insertion-ordered category map. -/
def ValidationEngine.summarizeByCategory (issues : List Issue) :
    List (String × CatCounts) :=
  issues.foldl (fun cats i => updateCategory i.category i cats) []

/-- The deduction of one issue inside calculateScore (the switch statement):
10 per Error, 3 per Warning, 1 per Information, 0 otherwise. -/
def ValidationEngine.issueDeduction (i : Issue) : Int :=
  if i.severity = "Error" then 10
  else if i.severity = "Warning" then 3
  else if i.severity = "Information" then 1
  else 0

/-- ValidationEngine.calculateScore: start at 100, fold the deductions, clamp
to the interval from 0 to 100. -/
def ValidationEngine.calculateScore (issues : List Issue) : Int :=
  max 0 (min 100 (issues.foldl (fun sc i => sc - ValidationEngine.issueDeduction i) 100))

/-- The summary record built by ValidationEngine.validate. -/
structure Summary where
  totalIssues : Nat
  errors : Nat
  warnings : Nat
  info : Nat
  hints : Nat
  passedValidation : Bool
  categories : List (String × CatCounts)
  score : Int
deriving DecidableEq

/-- Result of a successful normalization. -/
structure NormalizeResult where
  issues : List Issue
  summary : Summary
deriving DecidableEq

/-- The summary block of ValidationEngine.validate. -/
def ValidationEngine.buildSummary (issues : List Issue) : Summary :=
  { totalIssues := issues.length
    errors := issues.countP (fun i => i.severity == "Error")
    warnings := issues.countP (fun i => i.severity == "Warning")
    info := issues.countP (fun i => i.severity == "Information")
    hints := issues.countP (fun i => i.severity == "Hint")
    passedValidation := issues.countP (fun i => i.severity == "Error") == 0
    categories := ValidationEngine.summarizeByCategory issues
    score := ValidationEngine.calculateScore issues }

/-- The pure core of ValidationEngine.validate on an actual record sequence:
map every record to an issue, sort by severity, build the summary. -/
def ValidationEngine.normalizeList (raw : List RawErr) : NormalizeResult :=
  let issues := sortBySeverity (raw.map ValidationEngine.toIssue)
  { issues := issues, summary := ValidationEngine.buildSummary issues }

/-- The violations collection of the standardization payload: missing, an
actual array of records, or some other (truthy, non-array) value whose .map
call throws. -/
inductive ViolationsField where
  | absent
  | arr (xs : List RawErr)
  | nonArray
deriving DecidableEq

/-- The standardization response body: errors at top level or nested under
result. -/
structure StandardizationData where
  errs : ViolationsField := .absent
  resultErrs : ViolationsField := .absent
deriving DecidableEq

/-- JS rawErrors = data.errors || data.result?.errors || [] (an empty array is
truthy and is kept). -/
def resolveRawErrors (d : StandardizationData) : ViolationsField :=
  match d.errs with
  | .absent =>
      match d.resultErrs with
      | .absent => .arr []
      | x => x
  | x => x

/-- The fatal failure of the normalizer: the violation collection was not a
sequence, so rawErrors.map threw. -/
inductive NormalizationError where
  | notASequence
deriving DecidableEq

/-- ValidationEngine.validate: resolve the raw collection, then either fail
fatally (non-sequence) or normalize every record. -/
def ValidationEngine.validate (d : StandardizationData) :
    Except NormalizationError NormalizeResult :=
  match resolveRawErrors d with
  | .arr xs => .ok (ValidationEngine.normalizeList xs)
  | .nonArray => .error .notASequence
  | .absent => .ok (ValidationEngine.normalizeList [])

-- ===== Diff engine (DiffEngine) =====

/-- DiffEngine._fingerprint: rule code + path identify an issue across scans
(the JS template with || defaults is the identity on the string fields of a
normalized issue). -/
def DiffEngine.fingerprint (i : Issue) : String := i.code ++ "::" ++ i.path

/-- The key set of a fingerprint map built from a list of issues; Map.has
only depends on this set, so last-write-wins on duplicate keys is invisible
here. -/
def DiffEngine.fingerprints (l : List Issue) : List String :=
  l.map DiffEngine.fingerprint

/-- New issues: in current but not in previous, in current-list order. -/
def DiffEngine.newIssuesOf (curr prev : List Issue) : List Issue :=
  curr.filter (fun i => !(DiffEngine.fingerprints prev).contains (DiffEngine.fingerprint i))

/-- Resolved issues: in previous but not in current, in previous-list order. -/
def DiffEngine.resolvedIssuesOf (curr prev : List Issue) : List Issue :=
  prev.filter (fun i => !(DiffEngine.fingerprints curr).contains (DiffEngine.fingerprint i))

/-- Persisting issues: current issues whose fingerprint already existed, in
current-list order. -/
def DiffEngine.persistingIssuesOf (curr prev : List Issue) : List Issue :=
  curr.filter (fun i => (DiffEngine.fingerprints prev).contains (DiffEngine.fingerprint i))

/-- The summary stored in a snapshot; every numeric field may be absent and
is defaulted by the diff engine. -/
structure SnapSummary where
  score : Option Int := none
  totalIssues : Option Int := none
  errors : Option Int := none
  warnings : Option Int := none
  info : Option Int := none
deriving DecidableEq

/-- A persisted scan snapshot (ScanHistoryService.saveCurrentScan shape); the
diff engine defaults every field it touches. -/
structure ScanSnapshot where
  version : Option String := none
  scannedAt : Option String := none
  summary : Option SnapSummary := none
  issues : Option (List Issue) := none
deriving DecidableEq

/-- Field-wise current minus previous counts. -/
structure SummaryDelta where
  totalIssues : Int
  errors : Int
  warnings : Int
  info : Int
deriving DecidableEq

/-- The report produced by DiffEngine.compare. -/
structure DiffReport where
  isFirstScan : Bool
  previousVersion : Option String
  previousScannedAt : Option String
  scoreChange : Int
  previousScore : Option Int
  currentScore : Int
  newIssues : List Issue
  resolvedIssues : List Issue
  persistingIssues : List Issue
  summaryDelta : SummaryDelta
deriving DecidableEq

/-- JS previousScan.version || unknown (empty string falsy). -/
def versionOrUnknown (v : Option String) : String := strOrD v ("unknown")

/-- JS previousScan.scannedAt || null (empty string falsy). -/
def strTruthy (v : Option String) : Option String :=
  match v with
  | some s => if s = "" then none else some s
  | none => none

/-- DiffEngine.compare. The current results always carry a well-formed
summary (they come straight from the normalizer), so currentResults.summary
|| {} and currentResults.issues || [] are identities; the snapshot side keeps
every JS defaulting step: issues || [], summary || {}, score != null,
count || 0. -/
def DiffEngine.compare (currentResults : NormalizeResult)
    (previousScan : Option ScanSnapshot) : DiffReport :=
  match previousScan with
  | none =>
      { isFirstScan := true
        previousVersion := none
        previousScannedAt := none
        scoreChange := 0
        previousScore := none
        currentScore := currentResults.summary.score
        newIssues := []
        resolvedIssues := []
        persistingIssues := []
        summaryDelta := { totalIssues := 0, errors := 0, warnings := 0, info := 0 } }
  | some prev =>
      let prevIssues := prev.issues.getD []
      let currIssues := currentResults.issues
      let prevSummary := prev.summary.getD {}
      let currSummary := currentResults.summary
      let previousScore : Option Int := prevSummary.score
      let currentScore : Int := currSummary.score
      { isFirstScan := false
        previousVersion := some (versionOrUnknown prev.version)
        previousScannedAt := strTruthy prev.scannedAt
        scoreChange :=
          match previousScore with
          | some p => currentScore - p
          | none => 0
        previousScore := previousScore
        currentScore := currentScore
        newIssues := DiffEngine.newIssuesOf currIssues prevIssues
        resolvedIssues := DiffEngine.resolvedIssuesOf currIssues prevIssues
        persistingIssues := DiffEngine.persistingIssuesOf currIssues prevIssues
        summaryDelta :=
          { totalIssues := (currSummary.totalIssues : Int) - (prevSummary.totalIssues.getD 0)
            errors := (currSummary.errors : Int) - (prevSummary.errors.getD 0)
            warnings := (currSummary.warnings : Int) - (prevSummary.warnings.getD 0)
            info := (currSummary.info : Int) - (prevSummary.info.getD 0) } }

-- ===== Diff engine over malformed snapshots =====

/-- The issues field of a snapshot as it may actually arrive from storage:
missing, an array whose entries are records or null, or a truthy non-array
value (whose .forEach call throws). -/
inductive JsIssuesField where
  | absent
  | arr (xs : List (Option Issue))
  | nonArray
deriving DecidableEq

/-- A snapshot whose issues field may be malformed. -/
structure JsSnapshot where
  version : Option String := none
  scannedAt : Option String := none
  summary : Option SnapSummary := none
  issues : JsIssuesField := .absent
deriving DecidableEq

/-- The two ways DiffEngine.compare can throw (both TypeError in JS; the spec
taxonomy calls any failure of this component a DiffError). -/
inductive DiffError where
  | issuesNotArray
  | nullIssueEntry
deriving DecidableEq

/-- Is the issues field structurally malformed for the diff traversals? -/
def malformedIssues : JsIssuesField → Bool
  | .absent => false
  | .arr xs => xs.any (fun x => x.isNone)
  | .nonArray => true

/-- Traverse the issues field the way compare does: a missing field defaults
to [], a non-array throws at .forEach, a null entry throws inside
_fingerprint. -/
def DiffEngine.extractIssues : JsIssuesField → Except DiffError (List Issue)
  | .absent => .ok []
  | .nonArray => .error .issuesNotArray
  | .arr xs =>
      if xs.any (fun x => x.isNone) then .error .nullIssueEntry
      else .ok (xs.filterMap id)

/-- DiffEngine.compare on a possibly malformed snapshot: the only throwing
step is the issues traversal; everything after it is the pure compare. -/
def DiffEngine.compareChecked (currentResults : NormalizeResult)
    (snap : JsSnapshot) : Except DiffError DiffReport :=
  match DiffEngine.extractIssues snap.issues with
  | .error e => .error e
  | .ok prevIssues =>
      .ok (DiffEngine.compare currentResults (some
        { version := snap.version
          scannedAt := snap.scannedAt
          summary := snap.summary
          issues := some prevIssues }))

-- ===== Report compositor (ReportGenerator) =====

/-- The sections that ReportGenerator.generate emits, in source order. -/
inductive ReportSection where
  | cover
  | executiveSummary
  | changesSinceLastScan
  | detailedFindings
  | categoryAnalysis
  | recommendations
deriving DecidableEq

/-- The payload handed to ReportGenerator.generate. -/
structure ReportData where
  apiName : String := ""
  apiVersion : String := ""
  owner : String := ""
  validationResults : NormalizeResult
  diff : Option DiffReport := none
deriving DecidableEq

/-- The JS guard data.diff && !data.diff.isFirstScan. -/
def ReportGenerator.hasDiffSection (d : Option DiffReport) : Bool :=
  match d with
  | some dr => !dr.isFirstScan
  | none => false

/-- The section sequence of ReportGenerator.generate (build-guide variant with
the incremental diff section). -/
def ReportGenerator.generateSections (data : ReportData) : List ReportSection :=
  [ReportSection.cover, ReportSection.executiveSummary]
    ++ (if ReportGenerator.hasDiffSection data.diff
        then [ReportSection.changesSinceLastScan] else [])
    ++ [ReportSection.detailedFindings, ReportSection.categoryAnalysis,
        ReportSection.recommendations]

/-- Vertical geometry of one issue block in addDetailedFindings: the height
the wrapped message text takes, and the optional path line below it. These
depend on font metrics, so they are inputs of the layout model. -/
structure Finding where
  msgH : Nat
  hasPath : Bool := false
  pathH : Nat := 0
deriving DecidableEq

/-- The cursor state of the PDFKit document: emitted page count and the
vertical position y on the current page. -/
structure DocState where
  pageCount : Nat := 1
  y : Int := 60
deriving DecidableEq

/-- One drawn issue block: the page it was started on, its start cursor and
the bottom-most extent of its primitives. -/
structure DrawnBlock where
  page : Nat
  startY : Int
  bottom : Int
deriving DecidableEq

/-- The bottom boundary of the A4 content area (height 842, bottom margin
60). A block whose primitives reach below it continues on the next page. -/
def pageBottomY : Int := 782

/-- Does this block reach below the content area, so that its primitives
span two pages? -/
def blockSpansPages (b : DrawnBlock) : Bool := decide (b.bottom > pageBottomY)

/-- One iteration of the addDetailedFindings loop: if (doc.y > 700)
doc.addPage() — the fixed-threshold page-break check — then the severity bar
(height 50), the message at y + 20, the optional path line 2 below the
message, and doc.y advanced 12 past the content. -/
def ReportGenerator.emitFinding (st : DocState) (f : Finding) :
    DocState × DrawnBlock :=
  let broke := st.y > 700
  let pc := if broke then st.pageCount + 1 else st.pageCount
  let y : Int := if broke then 60 else st.y
  let msgBottom := y + 20 + f.msgH
  let contentBottom := if f.hasPath then msgBottom + 2 + f.pathH else msgBottom
  let bottom := max (y + 50) contentBottom
  ({ pageCount := pc, y := contentBottom + 12 },
   { page := pc, startY := y, bottom := bottom })

/-- The addDetailedFindings loop over all issue blocks, returning the final
document state and the trace of drawn blocks. -/
def ReportGenerator.runFindings (st : DocState) :
    List Finding → DocState × List DrawnBlock
  | [] => (st, [])
  | f :: rest =>
      let step := ReportGenerator.emitFinding st f
      let tail := ReportGenerator.runFindings step.1 rest
      (tail.1, step.2 :: tail.2)

/-- ReportGenerator.addFooter: revisit every buffered page by index and stamp
it. A stamp (i, p, n) means page index i received the text built from the
page number p = i + 1 and the total n = pages.count. -/
def ReportGenerator.addFooterStamps (pageCount : Nat) : List (Nat × Nat × Nat) :=
  (List.range pageCount).map (fun i => (i, i + 1, pageCount))

/-- The footer text drawn for one stamp: Page p of n. -/
def footerText (p n : Nat) : String :=
  ("Page " ++ toString p ++ " of " ++ toString n)

-- ===== Concrete sample data used by scenario conjuncts and witnesses =====

/-- Total of the per-category count fields of a category map. -/
def catTotal (cats : List (String × CatCounts)) : Nat :=
  (cats.map (fun kc => kc.2.count)).sum

/-- The raw WARN record of the two-record scenario of the spec. -/
def sampleWarnRec : RawErr := { ruleName := some ("info-contact"), severity := .str ("WARN") }

/-- The raw ERROR record of the two-record scenario of the spec. -/
def sampleErrRec : RawErr := { ruleName := some ("oas3-schema"), severity := .str ("ERROR") }

/-- A minimal normalized issue with the given code and path. -/
def mkIss (c p m : String) : Issue := { code := c, path := p, message := m }

/-- Current issues of the diff scenario of the spec: code a at path x (message
drifted) and code c at path z. -/
def scenarioCurr : List Issue := [mkIss ("a") ("x") ("m2"), mkIss ("c") ("z") ("")]

/-- Previous issues of the diff scenario of the spec: code a at path x and
code b at path y. -/
def scenarioPrev : List Issue := [mkIss ("a") ("x") ("m1"), mkIss ("b") ("y") ("")]

/-- The normalizer output on an empty violation list (score 100, passing). -/
def emptyResults : NormalizeResult := ValidationEngine.normalizeList []

/-- A previous snapshot whose summary carries score 50. -/
def snapScore50 : ScanSnapshot := { summary := some { score := some 50 } }

/-- The diff scenario previous snapshot. -/
def scenarioSnap : ScanSnapshot :=
  { version := some ("1.0.0"), summary := some { score := some 90 },
    issues := some scenarioPrev }

/-- The diff scenario current results (issues as-is, empty-list summary). -/
def scenarioCurrRes : NormalizeResult :=
  { issues := scenarioCurr, summary := ValidationEngine.buildSummary scenarioCurr }

/-- A well-formed possibly-malformed-typed snapshot (issues field absent). -/
def jsSnapOk : JsSnapshot := {}

/-- A malformed snapshot whose issues field is a truthy non-array. -/
def jsSnapBad : JsSnapshot := { issues := .nonArray }

/-- An issue block at cursor 700 whose wrapped message is 100 points tall. -/
def spanFinding : Finding := { msgH := 100 }

/-- A Hint-severity issue (deducts nothing from the score). -/
def hintIssue : Issue := { severity := "Hint", severityLevel := 3 }

/-- The scenario current issue list with its two entries swapped. -/
def scenarioCurrSwapped : List Issue := [mkIss ("c") ("z") (""), mkIss ("a") ("x") ("m2")]

-- ===== Helper lemmas =====

theorem insertBySeverity_perm (i : Issue) (l : List Issue) :
    (insertBySeverity i l).Perm (i :: l) := by
  induction l with
  | nil => simp [insertBySeverity]
  | cons j rest ih =>
      by_cases h : i.severityLevel ≤ j.severityLevel
      · simp [insertBySeverity, h]
      · simp only [insertBySeverity, if_neg h]
        exact (ih.cons j).trans (List.Perm.swap i j rest)

theorem sortBySeverity_perm (l : List Issue) : (sortBySeverity l).Perm l := by
  induction l with
  | nil => simp [sortBySeverity]
  | cons i rest ih =>
      exact (insertBySeverity_perm i (sortBySeverity rest)).trans (ih.cons i)

theorem mapSeverity_cases (v : JsVal) :
    ValidationEngine.mapSeverity v = "Error" ∨ ValidationEngine.mapSeverity v = "Warning"
      ∨ ValidationEngine.mapSeverity v = "Information"
      ∨ ValidationEngine.mapSeverity v = "Hint" := by
  unfold ValidationEngine.mapSeverity
  simp only []
  split
  · simp
  · split
    · simp
    · split
      · simp
      · split
        · simp
        · split <;> simp

theorem countSevFour (l : List Issue)
    (h : ∀ i ∈ l, i.severity = "Error" ∨ i.severity = "Warning"
      ∨ i.severity = "Information" ∨ i.severity = "Hint") :
    l.countP (fun i => i.severity == "Error") + l.countP (fun i => i.severity == "Warning")
      + l.countP (fun i => i.severity == "Information")
      + l.countP (fun i => i.severity == "Hint") = l.length := by
  induction l with
  | nil => simp
  | cons a rest ih =>
      have ha := h a (List.mem_cons_self a rest)
      have hr := ih (fun i hi => h i (List.mem_cons_of_mem a hi))
      simp only [List.countP_cons, List.length_cons]
      rcases ha with h1 | h1 | h1 | h1 <;> simp [h1] <;> omega

theorem catTotal_update (key : String) (i : Issue) (cats : List (String × CatCounts)) :
    catTotal (updateCategory key i cats) = catTotal cats + 1 := by
  induction cats with
  | nil => simp [updateCategory, catTotal, CatCounts.addIssue]
  | cons kc rest ih =>
      obtain ⟨k, c⟩ := kc
      by_cases h : k = key
      · simp [updateCategory, h, catTotal, CatCounts.addIssue]
        omega
      · simp only [updateCategory, if_neg h, catTotal, List.map_cons, List.sum_cons] at *
        omega

theorem catTotal_fold (l : List Issue) (cats : List (String × CatCounts)) :
    catTotal (l.foldl (fun cs i => updateCategory i.category i cs) cats)
      = catTotal cats + l.length := by
  induction l generalizing cats with
  | nil => simp
  | cons a rest ih =>
      simp only [List.foldl_cons, List.length_cons, ih, catTotal_update]
      omega

theorem scoreFoldEq (l : List Issue) (a : Int) :
    l.foldl (fun sc i => sc - ValidationEngine.issueDeduction i) a
      = a - (l.map ValidationEngine.issueDeduction).sum := by
  induction l generalizing a with
  | nil => simp
  | cons i rest ih =>
      simp only [List.foldl_cons, List.map_cons, List.sum_cons, ih]
      ring

theorem deductionSumEq (l : List Issue) :
    (l.map ValidationEngine.issueDeduction).sum
      = 10 * (l.countP (fun i => i.severity == "Error") : Int)
        + 3 * (l.countP (fun i => i.severity == "Warning") : Int)
        + (l.countP (fun i => i.severity == "Information") : Int) := by
  induction l with
  | nil => simp
  | cons a rest ih =>
      by_cases hE : a.severity = "Error"
      · simp [List.countP_cons, ih, ValidationEngine.issueDeduction, hE]
        ring
      · by_cases hW : a.severity = "Warning"
        · simp [List.countP_cons, ih, ValidationEngine.issueDeduction, hE, hW]
          ring
        · by_cases hI : a.severity = "Information"
          · simp [List.countP_cons, ih, ValidationEngine.issueDeduction, hE, hW, hI]
            ring
          · simp [List.countP_cons, ih, ValidationEngine.issueDeduction, hE, hW, hI]

theorem calculateScore_closed (l : List Issue) :
    ValidationEngine.calculateScore l =
      max 0 (min 100 (100 - 10 * (l.countP (fun i => i.severity == "Error") : Int)
        - 3 * (l.countP (fun i => i.severity == "Warning") : Int)
        - (l.countP (fun i => i.severity == "Information") : Int))) := by
  unfold ValidationEngine.calculateScore
  rw [scoreFoldEq, deductionSumEq]
  ring_nf

theorem mem_fingerprints {f : String} {l : List Issue} :
    f ∈ DiffEngine.fingerprints l ↔ ∃ i ∈ l, DiffEngine.fingerprint i = f := by
  simp [DiffEngine.fingerprints]

theorem mem_newIssuesOf {curr prev : List Issue} {i : Issue} :
    i ∈ DiffEngine.newIssuesOf curr prev ↔
      i ∈ curr ∧ DiffEngine.fingerprint i ∉ DiffEngine.fingerprints prev := by
  simp [DiffEngine.newIssuesOf, List.mem_filter, DiffEngine.fingerprints]

theorem mem_persistingIssuesOf {curr prev : List Issue} {i : Issue} :
    i ∈ DiffEngine.persistingIssuesOf curr prev ↔
      i ∈ curr ∧ DiffEngine.fingerprint i ∈ DiffEngine.fingerprints prev := by
  simp [DiffEngine.persistingIssuesOf, List.mem_filter, DiffEngine.fingerprints]

theorem mem_resolvedIssuesOf {curr prev : List Issue} {i : Issue} :
    i ∈ DiffEngine.resolvedIssuesOf curr prev ↔
      i ∈ prev ∧ DiffEngine.fingerprint i ∉ DiffEngine.fingerprints curr := by
  simp [DiffEngine.resolvedIssuesOf, List.mem_filter, DiffEngine.fingerprints]

-- ===== Claim theorems =====

/-- Claim C3 (refuted by the code): the severity mapping is case-insensitive
and sends ERROR and the code 0 to Error, WARN, WARNING and 1 to Warning, INFO,
INFORMATION and 2 to Information, HINT and 3 to Hint, everything else to
Warning. The string "0" does map to Error, but the JS number 0 is falsy, so
the guard if (severity is falsy) return Warning fires before the comparison
with "0": a raw record whose severity is the numeric code 0 yields Warning at
level 1, not Error at level 0. -/
theorem mapSeverity_numeric_zero_bug :
    ValidationEngine.mapSeverity (JsVal.num 0) = "Warning" ∧
    ValidationEngine.mapSeverityLevel (JsVal.num 0) = 1 ∧
    ValidationEngine.mapSeverity (JsVal.str ("0")) = "Error" ∧
    ValidationEngine.mapSeverityLevel (JsVal.str ("0")) = 0 ∧
    ValidationEngine.mapSeverity (JsVal.num 1) = "Warning" ∧
    ValidationEngine.mapSeverity (JsVal.num 2) = "Information" ∧
    ValidationEngine.mapSeverity (JsVal.num 3) = "Hint" ∧
    ValidationEngine.mapSeverity JsVal.absent = "Warning" ∧
    ValidationEngine.mapSeverity (JsVal.str ("error")) = "Error" ∧
    ValidationEngine.mapSeverity (JsVal.str ("WaRnInG")) = "Warning" ∧
    ValidationEngine.mapSeverity (JsVal.str ("bogus")) = "Warning" ∧
    (ValidationEngine.toIssue { severity := JsVal.num 0 }).severity = "Warning" ∧
    (ValidationEngine.toIssue { severity := JsVal.num 0 }).severityLevel = 1 := by
  decide

/-- Claim C4: compare of any current result against a null previous scan is
the first-scan report: isFirstScan true, previousScore null, scoreChange 0 and
all three diff lists empty (and currentScore is the current summary score). -/
theorem compare_first_scan (cur : NormalizeResult) :
    (DiffEngine.compare cur none).isFirstScan = true ∧
    (DiffEngine.compare cur none).previousScore = none ∧
    (DiffEngine.compare cur none).scoreChange = 0 ∧
    (DiffEngine.compare cur none).newIssues = [] ∧
    (DiffEngine.compare cur none).resolvedIssues = [] ∧
    (DiffEngine.compare cur none).persistingIssues = [] ∧
    (DiffEngine.compare cur none).currentScore = cur.summary.score :=
  ⟨rfl, rfl, rfl, rfl, rfl, rfl, rfl⟩

/-- Claim C5: whenever a non-null previous snapshot carrying a summary score
is supplied, compare reports previousScore as that score and scoreChange as
the current summary score minus it. -/
theorem compare_score_delta (cur : NormalizeResult) (snap : ScanSnapshot)
    (p : Int) (h : (snap.summary.getD {}).score = some p) :
    (DiffEngine.compare cur (some snap)).scoreChange = cur.summary.score - p ∧
    (DiffEngine.compare cur (some snap)).previousScore = some p := by
  simp [DiffEngine.compare, h]

theorem compare_score_delta_witness :
    (DiffEngine.compare emptyResults (some snapScore50)).scoreChange
      = emptyResults.summary.score - 50 ∧
    (DiffEngine.compare emptyResults (some snapScore50)).previousScore = some 50 :=
  compare_score_delta emptyResults snapScore50 50 (by decide)

/-- Claim C7: the sections of ReportGenerator.generate appear in the fixed
order cover, executive summary, changes-since-last-scan, detailed findings,
category analysis, recommendations, and the changes section is present
exactly when the payload carries a diff whose isFirstScan flag is false. -/
theorem generateSections_fixed_order (data : ReportData) :
    (ReportGenerator.generateSections data =
      if ReportGenerator.hasDiffSection data.diff then
        [ReportSection.cover, ReportSection.executiveSummary,
         ReportSection.changesSinceLastScan, ReportSection.detailedFindings,
         ReportSection.categoryAnalysis, ReportSection.recommendations]
      else
        [ReportSection.cover, ReportSection.executiveSummary,
         ReportSection.detailedFindings, ReportSection.categoryAnalysis,
         ReportSection.recommendations]) ∧
    (ReportSection.changesSinceLastScan ∈ ReportGenerator.generateSections data ↔
      ∃ dr, data.diff = some dr ∧ dr.isFirstScan = false) := by
  constructor
  · unfold ReportGenerator.generateSections
    split <;> rfl
  · cases hd : data.diff with
    | none =>
        simp [ReportGenerator.generateSections, ReportGenerator.hasDiffSection, hd]
    | some dr =>
        cases hf : dr.isFirstScan <;>
          simp [ReportGenerator.generateSections, ReportGenerator.hasDiffSection, hd, hf]

/-- Claim C6 counterexample: at cursor 700 with a block whose message is 100
points tall, the fixed-threshold check 700 > 700 does not fire, so no page is
added before drawing; the block starts at 700 and its primitives reach 820,
past the page bottom boundary 782 — the block spans two pages while the claim
says a new page is always started before a block would cross the margin. -/
theorem findings_block_can_span_pages :
    (ReportGenerator.runFindings { pageCount := 1, y := 700 } [spanFinding]).1.pageCount = 1 ∧
    ((ReportGenerator.runFindings { pageCount := 1, y := 700 } [spanFinding]).2.map
      blockSpansPages) = [true] ∧
    ((ReportGenerator.runFindings { pageCount := 1, y := 700 } [spanFinding]).2.map
      DrawnBlock.startY) = [700] := by
  decide

/-- Claim C6 (amended): before each issue block is drawn a new page is started
and the cursor reset exactly when the cursor exceeds the fixed threshold 700,
so every block starts at cursor at most 700 (a block taller than the space
left below the threshold may still cross the bottom margin and span two
pages); and the finalization pass stamps every page i (1-based) of the N
emitted pages with the text Page i of N, where N equals the total emitted
page count. -/
theorem findings_pagination_amended :
    (∀ (st : DocState) (fs : List Finding) (b : DrawnBlock),
        b ∈ (ReportGenerator.runFindings st fs).2 → b.startY ≤ 700) ∧
    (∀ n : Nat,
        (ReportGenerator.addFooterStamps n).length = n ∧
        ∀ s ∈ ReportGenerator.addFooterStamps n,
          s.1 < n ∧ s.2.1 = s.1 + 1 ∧ s.2.2 = n ∧
          footerText s.2.1 s.2.2 = footerText (s.1 + 1) n) := by
  constructor
  · intro st fs
    induction fs generalizing st with
    | nil =>
        intro b hb
        simp [ReportGenerator.runFindings] at hb
    | cons f rest ih =>
        intro b hb
        simp only [ReportGenerator.runFindings, List.mem_cons] at hb
        rcases hb with hb | hb
        · subst hb
          unfold ReportGenerator.emitFinding
          simp only []
          by_cases h : st.y > 700
          · simp [h]
          · simp [h]
            omega
        · exact ih _ b hb
  · intro n
    refine ⟨by simp [ReportGenerator.addFooterStamps], ?_⟩
    intro s hs
    simp only [ReportGenerator.addFooterStamps, List.mem_map, List.mem_range] at hs
    obtain ⟨i, hi, rfl⟩ := hs
    exact ⟨hi, rfl, rfl, rfl⟩

theorem findings_pagination_amended_witness :
    ((⟨1, 0, 50⟩ : DrawnBlock).startY ≤ 700) ∧
    (ReportGenerator.addFooterStamps 3).length = 3 :=
  ⟨findings_pagination_amended.1 ⟨1, 0⟩ [⟨10, false, 0⟩] ⟨1, 0, 50⟩ (by decide),
   (findings_pagination_amended.2 3).1⟩

/-- Claim C9: compare fails exactly when the snapshot structure is malformed
(its issues field a truthy non-array, or an array holding a null entry) — the
failure is the DiffError of the taxonomy — and on every well-formed snapshot
it returns the pure DiffReport of DiffEngine.compare; the function performs no
I/O (it is a pure function of its two arguments). -/
theorem compareChecked_failure_modes (cur : NormalizeResult) (snap : JsSnapshot) :
    ((∃ e, DiffEngine.compareChecked cur snap = .error e) ↔
        malformedIssues snap.issues = true) ∧
    ((∃ d, DiffEngine.compareChecked cur snap = .ok d) ↔
        malformedIssues snap.issues = false) ∧
    (∀ xs, DiffEngine.extractIssues snap.issues = .ok xs →
        DiffEngine.compareChecked cur snap =
          .ok (DiffEngine.compare cur (some
            { version := snap.version, scannedAt := snap.scannedAt,
              summary := snap.summary, issues := some xs }))) := by
  refine ⟨?_, ?_, ?_⟩
  · cases h : snap.issues with
    | absent =>
        simp [DiffEngine.compareChecked, DiffEngine.extractIssues, malformedIssues, h]
    | nonArray =>
        simp [DiffEngine.compareChecked, DiffEngine.extractIssues, malformedIssues, h]
    | arr xs =>
        by_cases ha : xs.any (fun x => x.isNone) <;>
          simp [DiffEngine.compareChecked, DiffEngine.extractIssues, malformedIssues, h, ha]
  · cases h : snap.issues with
    | absent =>
        simp [DiffEngine.compareChecked, DiffEngine.extractIssues, malformedIssues, h]
    | nonArray =>
        simp [DiffEngine.compareChecked, DiffEngine.extractIssues, malformedIssues, h]
    | arr xs =>
        by_cases ha : xs.any (fun x => x.isNone) <;>
          simp [DiffEngine.compareChecked, DiffEngine.extractIssues, malformedIssues, h, ha]
  · intro xs hx
    simp [DiffEngine.compareChecked, hx]

theorem compareChecked_failure_modes_witness :
    DiffEngine.compareChecked emptyResults jsSnapOk =
      .ok (DiffEngine.compare emptyResults (some
        { version := none, scannedAt := none, summary := none, issues := some [] })) ∧
    (∃ e, DiffEngine.compareChecked emptyResults jsSnapBad = .error e) :=
  ⟨(compareChecked_failure_modes emptyResults jsSnapOk).2.2 [] rfl,
   (compareChecked_failure_modes emptyResults jsSnapBad).1.mpr (by decide)⟩

/-- Claim C1: compare classifies by fingerprint (code ++ :: ++ path): new and
persisting issues together are exactly the current list (as sets — indeed the
two filters partition it), resolved and persisting together cover exactly the
previous list at the fingerprint identity under which compare matches issues
(a persisting entry is the current-scan copy, whose message may drift), new
and persisting never overlap, and new and persisting keep current-list order
while resolved keeps previous-list order. -/
theorem compare_diff_partition (cur : NormalizeResult) (snap : ScanSnapshot) :
    (∀ i : Issue,
        (i ∈ (DiffEngine.compare cur (some snap)).newIssues
          ∨ i ∈ (DiffEngine.compare cur (some snap)).persistingIssues) ↔
          i ∈ cur.issues) ∧
    (∀ f : String,
        (f ∈ DiffEngine.fingerprints (DiffEngine.compare cur (some snap)).resolvedIssues
          ∨ f ∈ DiffEngine.fingerprints (DiffEngine.compare cur (some snap)).persistingIssues)
          ↔ f ∈ DiffEngine.fingerprints (snap.issues.getD [])) ∧
    (∀ i : Issue, i ∈ (DiffEngine.compare cur (some snap)).newIssues →
        i ∉ (DiffEngine.compare cur (some snap)).persistingIssues) ∧
    (DiffEngine.compare cur (some snap)).newIssues.Sublist cur.issues ∧
    (DiffEngine.compare cur (some snap)).persistingIssues.Sublist cur.issues ∧
    (DiffEngine.compare cur (some snap)).resolvedIssues.Sublist (snap.issues.getD []) := by
  have hn : (DiffEngine.compare cur (some snap)).newIssues
      = DiffEngine.newIssuesOf cur.issues (snap.issues.getD []) := rfl
  have hp : (DiffEngine.compare cur (some snap)).persistingIssues
      = DiffEngine.persistingIssuesOf cur.issues (snap.issues.getD []) := rfl
  have hr : (DiffEngine.compare cur (some snap)).resolvedIssues
      = DiffEngine.resolvedIssuesOf cur.issues (snap.issues.getD []) := rfl
  rw [hn, hp, hr]
  refine ⟨?_, ?_, ?_, List.filter_sublist _, List.filter_sublist _, List.filter_sublist _⟩
  · intro i
    constructor
    · rintro (h | h)
      · exact (mem_newIssuesOf.mp h).1
      · exact (mem_persistingIssuesOf.mp h).1
    · intro hi
      by_cases hf : DiffEngine.fingerprint i
          ∈ DiffEngine.fingerprints (snap.issues.getD [])
      · exact Or.inr (mem_persistingIssuesOf.mpr ⟨hi, hf⟩)
      · exact Or.inl (mem_newIssuesOf.mpr ⟨hi, hf⟩)
  · intro f
    constructor
    · rintro (h | h)
      · obtain ⟨i, hi, hfi⟩ := mem_fingerprints.mp h
        exact mem_fingerprints.mpr ⟨i, (mem_resolvedIssuesOf.mp hi).1, hfi⟩
      · obtain ⟨i, hi, hfi⟩ := mem_fingerprints.mp h
        rw [← hfi]
        exact (mem_persistingIssuesOf.mp hi).2
    · intro hf
      obtain ⟨i, hiprev, hfi⟩ := mem_fingerprints.mp hf
      by_cases hc : f ∈ DiffEngine.fingerprints cur.issues
      · obtain ⟨j, hj, hfj⟩ := mem_fingerprints.mp hc
        refine Or.inr (mem_fingerprints.mpr ⟨j, ?_, hfj⟩)
        refine mem_persistingIssuesOf.mpr ⟨hj, ?_⟩
        rw [hfj]
        exact hf
      · refine Or.inl (mem_fingerprints.mpr ⟨i, ?_, hfi⟩)
        refine mem_resolvedIssuesOf.mpr ⟨hiprev, ?_⟩
        rw [hfi]
        exact hc
  · intro i hnew hpers
    exact (mem_newIssuesOf.mp hnew).2 (mem_persistingIssuesOf.mp hpers).2

theorem compare_diff_partition_witness :
    mkIss ("c") ("z") ("")
      ∉ (DiffEngine.compare scenarioCurrRes (some scenarioSnap)).persistingIssues :=
  (compare_diff_partition scenarioCurrRes scenarioSnap).2.2.1 (mkIss ("c") ("z") (""))
    (by decide)

/-- Claim C2: the score equals max(0, min(100, 100 - 10 per Error - 3 per
Warning - 1 per Information)), Hints deducting nothing; hence it always lies
between 0 and 100 and only depends on the severity counts, so it is invariant
under permutation of the issues; and the two-record scenario of the spec
(WARN info-contact, ERROR oas3-schema) yields score 87, two total issues, one
error, one warning, and a failed validation. -/
theorem calculateScore_spec :
    (∀ issues : List Issue,
        ValidationEngine.calculateScore issues =
          max 0 (min 100 (100 - 10 * (issues.countP (fun i => i.severity == "Error") : Int)
            - 3 * (issues.countP (fun i => i.severity == "Warning") : Int)
            - (issues.countP (fun i => i.severity == "Information") : Int)))
        ∧ 0 ≤ ValidationEngine.calculateScore issues
        ∧ ValidationEngine.calculateScore issues ≤ 100) ∧
    (∀ l₁ l₂ : List Issue, l₁.Perm l₂ →
        ValidationEngine.calculateScore l₁ = ValidationEngine.calculateScore l₂) ∧
    (∀ i : Issue, i.severity = "Hint" → ValidationEngine.issueDeduction i = 0) ∧
    ((ValidationEngine.normalizeList [sampleWarnRec, sampleErrRec]).summary.score = 87 ∧
      (ValidationEngine.normalizeList [sampleWarnRec, sampleErrRec]).summary.passedValidation
        = false ∧
      (ValidationEngine.normalizeList [sampleWarnRec, sampleErrRec]).summary.totalIssues = 2 ∧
      (ValidationEngine.normalizeList [sampleWarnRec, sampleErrRec]).summary.errors = 1 ∧
      (ValidationEngine.normalizeList [sampleWarnRec, sampleErrRec]).summary.warnings = 1) := by
  refine ⟨?_, ?_, ?_, by decide⟩
  · intro issues
    refine ⟨calculateScore_closed issues, le_max_left _ _, ?_⟩
    unfold ValidationEngine.calculateScore
    exact max_le (by norm_num) (min_le_left _ _)
  · intro l₁ l₂ hperm
    rw [calculateScore_closed, calculateScore_closed,
      hperm.countP_eq, hperm.countP_eq, hperm.countP_eq]
  · intro i hi
    simp [ValidationEngine.issueDeduction, hi]

theorem calculateScore_spec_witness :
    ValidationEngine.calculateScore scenarioCurr
      = ValidationEngine.calculateScore scenarioCurrSwapped ∧
    ValidationEngine.issueDeduction hintIssue = 0 :=
  ⟨calculateScore_spec.2.1 scenarioCurr scenarioCurrSwapped (by decide),
   calculateScore_spec.2.2.1 hintIssue (by decide)⟩

/-- Claim C8: validate fails (with the fatal NormalizationError of the
taxonomy) exactly when the resolved violation collection is not a sequence;
when it is a sequence of records the run succeeds, the output holds exactly
one issue per record (a permutation of the per-record images, so no record is
ever dropped), and a fully empty record is defaulted to code standardization,
message Standardization violation, severity Warning at level 1, empty path
and the General category. -/
theorem validate_totality (d : StandardizationData) :
    (resolveRawErrors d = ViolationsField.nonArray →
        ValidationEngine.validate d = .error NormalizationError.notASequence) ∧
    (∀ xs, resolveRawErrors d = ViolationsField.arr xs →
        ValidationEngine.validate d = .ok (ValidationEngine.normalizeList xs) ∧
        (ValidationEngine.normalizeList xs).issues.length = xs.length ∧
        (ValidationEngine.normalizeList xs).issues.Perm
          (xs.map ValidationEngine.toIssue)) ∧
    ValidationEngine.toIssue {} =
      { code := "standardization", message := "Standardization violation",
        severity := "Warning", severityLevel := 1, path := "", range := none,
        category := "General" } := by
  refine ⟨?_, ?_, by decide⟩
  · intro h
    simp [ValidationEngine.validate, h]
  · intro xs h
    refine ⟨by simp [ValidationEngine.validate, h], ?_, sortBySeverity_perm _⟩
    have hp := sortBySeverity_perm (xs.map ValidationEngine.toIssue)
    exact hp.length_eq.trans (List.length_map _ _)

theorem validate_totality_witness :
    ValidationEngine.validate { errs := .nonArray }
      = .error NormalizationError.notASequence ∧
    ValidationEngine.validate { errs := .arr [{}] }
      = .ok (ValidationEngine.normalizeList [{}]) ∧
    (ValidationEngine.normalizeList [{}]).issues.length = 1 :=
  ⟨(validate_totality { errs := .nonArray }).1 (by decide),
   ((validate_totality { errs := .arr [{}] }).2.1 [{}] (by decide)).1,
   by simpa using ((validate_totality { errs := .arr [{}] }).2.1 [{}] (by decide)).2.1⟩

/-- Claim C10: the summary is internally consistent on every input sequence:
totalIssues is the length of the issues list, the four severity counts sum to
totalIssues (every issue carries exactly one of the four labels), and the
count fields of the category map sum to totalIssues (every issue lands in
exactly one category entry). -/
theorem summary_consistency (rs : List RawErr) :
    ((ValidationEngine.normalizeList rs).summary.totalIssues
        = (ValidationEngine.normalizeList rs).issues.length) ∧
    ((ValidationEngine.normalizeList rs).summary.errors
        + (ValidationEngine.normalizeList rs).summary.warnings
        + (ValidationEngine.normalizeList rs).summary.info
        + (ValidationEngine.normalizeList rs).summary.hints
        = (ValidationEngine.normalizeList rs).summary.totalIssues) ∧
    (catTotal (ValidationEngine.normalizeList rs).summary.categories
        = (ValidationEngine.normalizeList rs).summary.totalIssues) := by
  refine ⟨rfl, ?_, ?_⟩
  · apply countSevFour
    intro i hi
    have hm : i ∈ rs.map ValidationEngine.toIssue :=
      ((sortBySeverity_perm (rs.map ValidationEngine.toIssue)).mem_iff).mp hi
    obtain ⟨r, hr, rfl⟩ := List.mem_map.mp hm
    exact mapSeverity_cases r.severity
  · have h := catTotal_fold (sortBySeverity (rs.map ValidationEngine.toIssue)) []
    simpa [ValidationEngine.summarizeByCategory, catTotal] using h
